import Mathlib

/-!
Verification of the nova server sample-buffer subsystem:
`source/server/buffer_manager.hpp` (buffer_wrapper, buffer_manager) and
`utilities/malloc_aligned.hpp` (aligned allocation backends).

Shallow embedding conventions:
* `size_t` is a 64-bit unsigned integer; where the source performs unsigned
  subtraction the wrap-around is modelled explicitly with `% 2^64` (`size_sub`).
* Sample values (`sample_t`, a C `float`) are abstracted as `Int`; the claims
  under study concern which cells are written, never float arithmetic.  The
  `float_type` template parameter is modelled at its `float_type = sample_t`
  instantiation, so the `sample_t(values[i])` conversion is the identity.
* Buffer storage is a total map `Nat → sample_t` (memory around the buffer is
  addressable too, so out-of-bounds writes remain observable in the model).
* Pointers/addresses are `Nat`; `sizeof(void*) = 8`.
-/

namespace Nova

abbrev sample_t := Int

/-- Buffer storage viewed as sample-indexed memory. -/
abbrev Mem := Nat → sample_t

/-- 2^64, the modulus of `size_t` arithmetic. -/
def U64 : Nat := 2 ^ 64

/-- `size_t` subtraction `a - b` as the source computes it: unsigned, wrapping
modulo 2^64 (defined for `a b < 2^64`, which covers every use below). -/
def size_sub (a b : Nat) : Nat := (a + U64 - b) % U64

/-- `nova::buffer_wrapper` data members (buffer_manager.hpp lines 128-131):
`sample_t* data; size_t frames_; uint channels_; int sample_rate_;`.
The null pointer is `none`. -/
structure buffer_wrapper where
  data : Option Mem
  frames_ : Nat
  channels_ : Nat
  sample_rate_ : Int

/-- The default constructor: `data(0), frames_(0), channels_(0), sample_rate_(0)`. -/
def buffer_wrapper.init : buffer_wrapper :=
  { data := none, frames_ := 0, channels_ := 0, sample_rate_ := 0 }

/-- `buffer_wrapper::free`: `if (data) { free_aligned(data); data = 0;
frames_ = 0; channels_ = 0; }` — note `sample_rate_` is not touched. -/
def buffer_wrapper.free (b : buffer_wrapper) : buffer_wrapper :=
  match b.data with
  | some _ =>
      { data := none, frames_ := 0, channels_ := 0, sample_rate_ := b.sample_rate_ }
  | none => b

/-- Modelled from the spec: `buffer_wrapper::allocate(frames, channels)` is
declared in buffer_manager.hpp but its definition is not under src.  Spec §4.2:
precondition — buffer unallocated; allocates aligned, uninitialized storage
sized for frame_count × channel_count samples; on success frame_count and
channel_count are set (the spec names no other field).  The successful case is
modelled, with the fresh (uninitialized, hence arbitrary) storage passed as an
explicit argument. -/
def buffer_wrapper.allocate (b : buffer_wrapper) (frames channels : Nat)
    (fresh : Mem) : buffer_wrapper :=
  { b with data := some fresh, frames_ := frames, channels_ := channels }

/-- Modelled from the spec: `zerovec(dest, n)` lives in simd/simd_memory.hpp,
which is not under src; the spec describes it as the vectorized zero-fill
kernel, whose observable contract is to set the first `n` samples of `dest`
to silence (zero). -/
def zerovec (mem : Mem) (n : Nat) : Mem :=
  fun j => if j < n then 0 else mem j

/-- `buffer_wrapper::zero`: `assert(data); zerovec(data, frames_);` — the
count passed to the fill kernel is `frames_` alone. -/
def buffer_wrapper.zero (b : buffer_wrapper) : buffer_wrapper :=
  { b with data := b.data.map (fun mem => zerovec mem b.frames_) }

/-- One iteration of the scatter loop body: `index = indices[i];
if (index < frames_) data[index] = values[i];`. -/
def scatterStep (frames : Nat) (m : Mem) (p : Nat × sample_t) : Mem :=
  if p.1 < frames then Function.update m p.1 p.2 else m

/-- The scatter loop `for (i = 0; i != count; ++i)` over the (index, value)
pairs, in order. -/
def scatterWrites (frames : Nat) (mem : Mem) (pairs : List (Nat × sample_t)) : Mem :=
  pairs.foldl (scatterStep frames) mem

/-- `buffer_wrapper::set_samples(count, indices, values)` (scatter form),
buffer_manager.hpp lines 70-80; the `count` pairs are modelled as a list. -/
def buffer_wrapper.set_samples_scatter (b : buffer_wrapper)
    (pairs : List (Nat × sample_t)) : buffer_wrapper :=
  { b with data := b.data.map (fun mem => scatterWrites b.frames_ mem pairs) }

/-- The contiguous write loop: `for (i = 0; i != count; ++i)
base[i] = sample_t(values[i]);` with `base = data + position`. -/
def storeSeq (mem : Mem) (base : Nat) (values : Nat → sample_t) : Nat → Mem
  | 0 => mem
  | n + 1 => Function.update (storeSeq mem base values n) (base + n) (values n)

/-- `buffer_wrapper::set_samples(position, count, values)` (contiguous form),
buffer_manager.hpp lines 83-92: `avail = frames_ - position` in `size_t`
(wrapping — see `size_sub`), `count = std::min(size_t(count), avail)`, then
the write loop. -/
def buffer_wrapper.set_samples_contiguous (b : buffer_wrapper)
    (position count : Nat) (values : Nat → sample_t) : buffer_wrapper :=
  { b with data := b.data.map (fun mem =>
      storeSeq mem position values (min count (size_sub b.frames_ position))) }

/-- The fill loop: `val = sample_t(value); for (i = 0; i != count; ++i)
base[i] = val;`. -/
def fillSeq (mem : Mem) (base : Nat) (val : sample_t) : Nat → Mem
  | 0 => mem
  | n + 1 => Function.update (fillSeq mem base val n) (base + n) val

/-- `buffer_wrapper::fill_samples(position, count, value)`, buffer_manager.hpp
lines 95-105: same wrapping `avail` computation and clamp as the contiguous
`set_samples`, broadcasting one value. -/
def buffer_wrapper.fill_samples (b : buffer_wrapper)
    (position count : Nat) (value : sample_t) : buffer_wrapper :=
  { b with data := b.data.map (fun mem =>
      fillSeq mem position value (min count (size_sub b.frames_ position))) }

/-- `nova::buffer_manager`: `std::vector<buffer_wrapper> buffers;`. -/
structure buffer_manager where
  buffers : List buffer_wrapper

/-- The constructor `buffer_manager(uint max_buffers) :
buffers(max_buffers, buffer_wrapper())`. -/
def buffer_manager.make (max_buffers : Nat) : buffer_manager :=
  { buffers := List.replicate max_buffers buffer_wrapper.init }

/-- `buffer_manager::check_buffer_unused(index)`: `if (buffers[index].data !=
NULL) throw std::runtime_error("buffer already in use");` — a pure guard: on
the non-throwing path the manager is returned unchanged. -/
def buffer_manager.check_buffer_unused (m : buffer_manager) (index : Nat) :
    Except String buffer_manager :=
  match (m.buffers.getD index buffer_wrapper.init).data with
  | some _ => Except.error "buffer already in use"
  | none => Except.ok m

/-- `buffer_manager::check_buffer_in_use(index)`: `if (buffers[index].data ==
NULL) throw std::runtime_error("buffer is not in use");`. -/
def buffer_manager.check_buffer_in_use (m : buffer_manager) (index : Nat) :
    Except String buffer_manager :=
  match (m.buffers.getD index buffer_wrapper.init).data with
  | none => Except.error "buffer is not in use"
  | some _ => Except.ok m

/-- Scalar argument list the manager's contiguous `set_samples` actually
passes when delegating (buffer_manager.hpp line 194):
`buffers[index].set_samples(count, position, count, values)` — the scalar
arguments are `(count, position, count)`, four arguments in all counting
`values`. -/
def manager_contiguous_call_scalars (position count : Nat) : List Nat :=
  [count, position, count]

/-- Scalar parameter list `(position, count)` of buffer_wrapper's contiguous
`set_samples(position, count, values)` overload — the delegation target the
claim names; it takes three arguments in all counting `values`. -/
def wrapper_contiguous_signature_scalars (position count : Nat) : List Nat :=
  [position, count]

/-- Observable outcome of an allocation call: a returned address, a null
return, or a raised (thrown) exception escaping the call. -/
inductive alloc_result where
  | ok (addr : Nat)
  | null
  | raised
deriving DecidableEq, Repr

/-- `const int malloc_memory_alignment = 64;` (posix backend). -/
def malloc_memory_alignment : Nat := 64

/-- `malloc_aligned` posix backend (malloc_aligned.hpp lines 42-50):
`status = posix_memalign(&ret, malloc_memory_alignment, nbytes); if (!status)
return ret; else return 0;`.  The external `posix_memalign` is modelled by its
observables: the status it returns and the address it stores through `ret`;
its documented contract (a zero status delivers an address aligned to the
requested alignment, and it never throws) is carried as a hypothesis where the
alignment theorem needs it. -/
def posix_malloc_aligned (status addr : Nat) : alloc_result :=
  if status = 0 then alloc_result.ok addr else alloc_result.null

/-- External collaborator, modelled from the TBB documentation:
`tbb::cache_aligned_allocator<T>::allocate(n)` returns a cache-line-aligned
block or throws `std::bad_alloc` when the allocation fails; it never returns a
null pointer.  `fails` selects the failure branch; `addr` is the address
delivered on success. -/
def tbb_allocate (fails : Bool) (addr : Nat) : alloc_result :=
  if fails then alloc_result.raised else alloc_result.ok addr

/-- `malloc_aligned` TBB backend (malloc_aligned.hpp lines 59-64):
`return static_cast<void*>(ca_alloc.allocate(nbytes));` — there is no handler,
so a `std::bad_alloc` thrown by the allocator propagates out of
`malloc_aligned`. -/
def tbb_malloc_aligned (fails : Bool) (addr : Nat) : alloc_result :=
  tbb_allocate fails addr

/-- `#define VECTORALIGNMENT 128` (manual fallback backend); the byte
alignment used is `VECTORALIGNMENT/8 = 16`. -/
def VECTORALIGNMENT : Nat := 128

/-- The fallback's aligned-pointer computation (malloc_aligned.hpp lines
81-84) for a raw `malloc` result `vec`: `alignment = ((long)vec +
sizeof(void*)) & (VECTORALIGNMENT/8 - 1); ret = (unsigned char*)vec +
sizeof(void*) + (alignment == 0 ? 0 : VECTORALIGNMENT/8 - alignment);` with
`sizeof(void*) = 8` and the power-of-two mask written as `%`. -/
def fallback_aligned_ptr (vec : Nat) : Nat :=
  vec + 8 +
    (if (vec + 8) % (VECTORALIGNMENT / 8) = 0 then 0
     else VECTORALIGNMENT / 8 - (vec + 8) % (VECTORALIGNMENT / 8))

/-- `malloc_aligned` manual fallback (malloc_aligned.hpp lines 76-92), address
view: `vec = malloc(nbytes + (VECTORALIGNMENT/8-1) + sizeof(void*)); if (vec
!= NULL) { ...; return ret; } else return 0;`.  The external `malloc`'s
observable is its returned pointer (`none` = NULL). -/
def fallback_malloc_aligned (mallocResult : Option Nat) : alloc_result :=
  match mallocResult with
  | some vec => alloc_result.ok (fallback_aligned_ptr vec)
  | none => alloc_result.null

/-- Pointer-sized heap cells: `heap a` is the pointer value stored by the
8-byte word that starts at byte address `a`. -/
abbrev Heap := Nat → Nat

/-- `malloc_aligned` manual fallback, success path with its heap effect
(malloc_aligned.hpp lines 81-87): computes `ret` from the raw pointer `vec`,
then `*(void**)((unsigned char*)ret - sizeof(void*)) = vec;` — the original
pointer is stored in the word immediately before the returned region. -/
def fallback_malloc_aligned_heap (heap : Heap) (vec : Nat) : Nat × Heap :=
  (fallback_aligned_ptr vec,
   Function.update heap (fallback_aligned_ptr vec - 8) vec)

/-- `free_aligned` manual fallback (malloc_aligned.hpp lines 94-99):
`ori = *(void**)((unsigned char*)ptr - sizeof(void*)); free(ori);` — returns
the pointer the backend recovers and releases. -/
def free_aligned_fallback (heap : Heap) (ptr : Nat) : Nat :=
  heap (ptr - 8)

/-- `calloc_aligned(nbytes)` (malloc_aligned.hpp lines 103-109): `ret =
malloc_aligned(nbytes); if (ret) memset(ret, 0, nbytes); return ret;` — at the
address level it returns exactly `malloc_aligned`'s result; the `memset`
mutates contents only, never the address. -/
def calloc_aligned (r : alloc_result) : alloc_result := r

/-- All-zero sample memory, used as concrete storage and as the `getD`
fallback when inspecting optional storage. -/
def memZero : Mem := fun _ => 0

/-- All-ones sample memory. -/
def memOnes : Mem := fun _ => 1

/-- A constant-one value stream for the contiguous write. -/
def onesVals : Nat → sample_t := fun _ => 1

/-- A 4-frame, 1-channel allocated buffer holding zeros. -/
def cbuf : buffer_wrapper := buffer_wrapper.init.allocate 4 1 memZero

/-- A 2-frame, 2-channel allocated buffer holding ones (4 stored samples). -/
def zbuf : buffer_wrapper := buffer_wrapper.init.allocate 2 2 memOnes

/-- A 3-frame, 1-channel allocated buffer holding zeros. -/
def wbuf : buffer_wrapper := buffer_wrapper.init.allocate 3 1 memZero

/-- Scatter pairs: one in range (index 1), one out of range (index 7). -/
def wpairs : List (Nat × sample_t) := [(1, 5), (7, 9)]

/-- A freshly constructed capacity-2 manager (both slots free). -/
def wmgr : buffer_manager := buffer_manager.make 2

/-- A one-slot manager whose slot 0 is allocated. -/
def wmgrAlloc : buffer_manager :=
  { buffers := [buffer_wrapper.init.allocate 1 1 memZero] }

/-- A 2-frame, 1-channel allocated buffer holding threes. -/
def fbuf : buffer_wrapper := buffer_wrapper.init.allocate 2 1 (fun _ => 3)

/-- The scatter loop gives the same result as the scatter loop over only the
in-range pairs: an out-of-range pair leaves the memory untouched. -/
theorem scatterWrites_filter (frames : Nat) (pairs : List (Nat × sample_t)) :
    ∀ mem : Mem,
      scatterWrites frames mem pairs
        = scatterWrites frames mem
            (pairs.filter (fun p => decide (p.1 < frames))) := by
  induction pairs with
  | nil => intro mem; rfl
  | cons p rest ih =>
    intro mem
    by_cases hp : p.1 < frames
    · have h2 : (p :: rest).filter (fun q => decide (q.1 < frames))
          = p :: rest.filter (fun q => decide (q.1 < frames)) := by
        simp [hp]
      show scatterWrites frames (scatterStep frames mem p) rest
          = scatterWrites frames mem
              ((p :: rest).filter (fun q => decide (q.1 < frames)))
      rw [h2]
      exact ih (scatterStep frames mem p)
    · have hstep : scatterStep frames mem p = mem := by
        simp [scatterStep, hp]
      have h2 : (p :: rest).filter (fun q => decide (q.1 < frames))
          = rest.filter (fun q => decide (q.1 < frames)) := by
        simp [hp]
      show scatterWrites frames (scatterStep frames mem p) rest
          = scatterWrites frames mem
              ((p :: rest).filter (fun q => decide (q.1 < frames)))
      rw [hstep, h2]
      exact ih mem

/-- A cell whose index is targeted by no pair is left unchanged by the scatter
loop. -/
theorem scatterWrites_untouched (frames : Nat) (pairs : List (Nat × sample_t))
    (j : Nat) :
    ∀ mem : Mem, (∀ p ∈ pairs, p.1 ≠ j) →
      scatterWrites frames mem pairs j = mem j := by
  induction pairs with
  | nil => intro mem _; rfl
  | cons p rest ih =>
    intro mem hall
    have hp : p.1 ≠ j := hall p (List.mem_cons_self p rest)
    have hrest : ∀ q ∈ rest, q.1 ≠ j := fun q hq =>
      hall q (List.mem_cons_of_mem p hq)
    show scatterWrites frames (scatterStep frames mem p) rest j = mem j
    rw [ih (scatterStep frames mem p) hrest]
    unfold scatterStep
    split
    · exact Function.update_noteq (Ne.symm hp) p.2 mem
    · rfl

/-- The fallback's aligned pointer is always a multiple of
`VECTORALIGNMENT/8 = 16`. -/
theorem fallback_aligned_ptr_mod (vec : Nat) :
    fallback_aligned_ptr vec % (VECTORALIGNMENT / 8) = 0 := by
  have h : VECTORALIGNMENT / 8 = 16 := by norm_num [VECTORALIGNMENT]
  unfold fallback_aligned_ptr
  rw [h]
  split <;> omega

/-- The fallback's aligned pointer lies at least `sizeof(void*)` past the raw
pointer (room for the stored original) and within the over-allocated pad. -/
theorem fallback_aligned_ptr_bounds (vec : Nat) :
    vec + 8 ≤ fallback_aligned_ptr vec ∧
      fallback_aligned_ptr vec ≤ vec + 8 + (VECTORALIGNMENT / 8 - 1) := by
  have h : VECTORALIGNMENT / 8 = 16 := by norm_num [VECTORALIGNMENT]
  unfold fallback_aligned_ptr
  rw [h]
  split <;> omega

/-- C1: the claim says the contiguous `set_samples`/`fill_samples` clamp count
to `max(0, frame_count − position)`, so for position > frame_count nothing is
written.  On the code, `avail = frames_ - position` is unsigned `size_t`
subtraction: for a 4-frame buffer and position 5 it wraps, the clamp
`min(count, avail)` leaves count = 1, and one sample is written at index
5 ≥ frame_count — both by `set_samples` and by `fill_samples`. -/
theorem contiguous_clamp_underflows_past_frame_count :
    cbuf.frames_ = 4
  ∧ min 1 (size_sub cbuf.frames_ 5) = 1
  ∧ ((cbuf.set_samples_contiguous 5 1 onesVals).data.getD memZero) 5 = 1
  ∧ ((cbuf.fill_samples 5 1 1).data.getD memZero) 5 = 1 := by
  refine ⟨rfl, by decide, rfl, rfl⟩

/-- C2: the claim says `zero()` fills all frame_count × channel_count stored
samples with silence.  The code calls `zerovec(data, frames_)`, so on an
allocated 2-frame, 2-channel buffer (4 stored samples, all initially 1) the
samples at indices 2 and 3 are still 1 after `zero()`; only the first
frame_count samples are silenced. -/
theorem zero_fills_only_frame_count_samples :
    zbuf.frames_ * zbuf.channels_ = 4
  ∧ (zbuf.zero.data.getD memOnes) 1 = 0
  ∧ (zbuf.zero.data.getD memOnes) 2 = 1
  ∧ (zbuf.zero.data.getD memOnes) 3 = 1 := by
  refine ⟨rfl, rfl, rfl, rfl⟩

/-- C3: the claim says the manager's contiguous `set_samples(index, position,
count, values)` delegates the contiguous operation unchanged, i.e. calls the
wrapper's `set_samples(position, count, values)`.  The code instead calls
`buffers[index].set_samples(count, position, count, values)`: the scalar
argument list `(count, position, count)` is not the contiguous overload's
`(position, count)` — it has the wrong arity (four arguments in total against
three-parameter overloads), so the delegation matches no overload at all. -/
theorem manager_contiguous_delegation_mismatch :
    manager_contiguous_call_scalars 3 2
      ≠ wrapper_contiguous_signature_scalars 3 2
  ∧ (manager_contiguous_call_scalars 3 2).length
      ≠ (wrapper_contiguous_signature_scalars 3 2).length := by
  decide

/-- C4: the claim says every backend signals allocation failure by a null
return and never raises.  The posix backend and the manual fallback do return
null on failure, but the TBB backend returns `ca_alloc.allocate(nbytes)`
unguarded, and `tbb::cache_aligned_allocator::allocate` throws
`std::bad_alloc` on failure — so on failure that backend raises and is
distinguishable from the other two. -/
theorem tbb_backend_raises_on_failure :
    tbb_malloc_aligned true 0 = alloc_result.raised
  ∧ tbb_malloc_aligned true 0 ≠ alloc_result.null
  ∧ posix_malloc_aligned 12 0 = alloc_result.null
  ∧ fallback_malloc_aligned none = alloc_result.null := by
  decide

/-- C5: for an index within bounds, `check_buffer_unused` signals "buffer
already in use" exactly when the slot's data pointer is non-null (Allocated),
`check_buffer_in_use` signals "buffer is not in use" exactly when it is null
(Free), and on the non-signalling path each guard returns the manager
unchanged (no state is modified). -/
theorem check_guards_iff_slot_state (m : buffer_manager) (index : Nat)
    (_h : index < m.buffers.length) :
    (m.check_buffer_unused index = Except.error "buffer already in use"
        ↔ (m.buffers.getD index buffer_wrapper.init).data.isSome = true)
  ∧ (m.check_buffer_unused index = Except.ok m
        ↔ (m.buffers.getD index buffer_wrapper.init).data.isSome = false)
  ∧ (m.check_buffer_in_use index = Except.error "buffer is not in use"
        ↔ (m.buffers.getD index buffer_wrapper.init).data.isSome = false)
  ∧ (m.check_buffer_in_use index = Except.ok m
        ↔ (m.buffers.getD index buffer_wrapper.init).data.isSome = true) := by
  cases hd : (m.buffers.getD index buffer_wrapper.init).data with
  | none =>
    simp only [buffer_manager.check_buffer_unused,
               buffer_manager.check_buffer_in_use, hd]
    simp
  | some mem =>
    simp only [buffer_manager.check_buffer_unused,
               buffer_manager.check_buffer_in_use, hd]
    simp

/-- Witness for C5: on a fresh capacity-2 manager, `check_buffer_in_use 0`
signals "not in use"; on a manager whose slot 0 is allocated,
`check_buffer_unused 0` signals "already in use". -/
theorem check_guards_iff_slot_state_witness :
    wmgr.check_buffer_in_use 0 = Except.error "buffer is not in use"
  ∧ wmgrAlloc.check_buffer_unused 0 = Except.error "buffer already in use" :=
  ⟨((check_guards_iff_slot_state wmgr 0 (by decide)).2.2.1).mpr (by decide),
   ((check_guards_iff_slot_state wmgrAlloc 0 (by decide)).1).mpr (by decide)⟩

/-- C6: under every compiled backend, a successfully returned block's start
address is a multiple of that backend's alignment constant: for the posix
backend (given posix_memalign's contract, carried as a hypothesis) it is a
multiple of `malloc_memory_alignment = 64`; for the TBB backend (given the
allocator's cache-alignment contract) a multiple of the line size; for the
manual fallback — proved outright from the pointer arithmetic — a multiple of
`VECTORALIGNMENT/8 = 16`, and `calloc_aligned` inherits the same alignment. -/
theorem malloc_aligned_alignment :
    (∀ status addr r : Nat,
        (status = 0 → addr % malloc_memory_alignment = 0) →
        posix_malloc_aligned status addr = alloc_result.ok r →
        r % malloc_memory_alignment = 0)
  ∧ (∀ (lineSize : Nat) (fails : Bool) (addr r : Nat),
        (fails = false → addr % lineSize = 0) →
        tbb_malloc_aligned fails addr = alloc_result.ok r →
        r % lineSize = 0)
  ∧ (∀ (mres : Option Nat) (r : Nat),
        fallback_malloc_aligned mres = alloc_result.ok r →
        r % (VECTORALIGNMENT / 8) = 0)
  ∧ (∀ (mres : Option Nat) (r : Nat),
        calloc_aligned (fallback_malloc_aligned mres) = alloc_result.ok r →
        r % (VECTORALIGNMENT / 8) = 0) := by
  refine ⟨?_, ?_, ?_, ?_⟩
  · intro status addr r hc he
    unfold posix_malloc_aligned at he
    by_cases hs : status = 0
    · rw [if_pos hs] at he
      injection he with h1
      exact h1 ▸ hc hs
    · rw [if_neg hs] at he
      exact alloc_result.noConfusion he
  · intro lineSize fails addr r hc he
    unfold tbb_malloc_aligned tbb_allocate at he
    cases fails with
    | true => simp at he
    | false =>
      simp at he
      exact he ▸ hc rfl
  · intro mres r he
    cases mres with
    | none => exact alloc_result.noConfusion he
    | some vec =>
      simp [fallback_malloc_aligned] at he
      exact he ▸ fallback_aligned_ptr_mod vec
  · intro mres r he
    cases mres with
    | none => exact alloc_result.noConfusion he
    | some vec =>
      simp [calloc_aligned, fallback_malloc_aligned] at he
      exact he ▸ fallback_aligned_ptr_mod vec

/-- Witness for C6: each backend conjunct applied at a concrete input. -/
theorem malloc_aligned_alignment_witness :
    (64 : Nat) % malloc_memory_alignment = 0
  ∧ (128 : Nat) % 128 = 0
  ∧ fallback_aligned_ptr 3 % (VECTORALIGNMENT / 8) = 0
  ∧ fallback_aligned_ptr 5 % (VECTORALIGNMENT / 8) = 0 :=
  ⟨malloc_aligned_alignment.1 0 64 64 (fun _ => by decide) rfl,
   malloc_aligned_alignment.2.1 128 false 128 128 (fun _ => by decide) rfl,
   malloc_aligned_alignment.2.2.1 (some 3) (fallback_aligned_ptr 3) rfl,
   malloc_aligned_alignment.2.2.2 (some 5) (fallback_aligned_ptr 5) rfl⟩

/-- C7: under the manual fallback, for every raw pointer `vec` delivered by
malloc, the aligned allocation stores `vec` in the word immediately before the
returned region (at `ret − sizeof(void*)`, which lies inside the
over-allocated block: `vec + 8 ≤ ret ≤ vec + 8 + 15`), and `free_aligned` on
the returned pointer reads back exactly `vec` and releases it. -/
theorem fallback_store_recover_roundtrip (heap : Heap) (vec : Nat) :
    (fallback_malloc_aligned_heap heap vec).2
        ((fallback_malloc_aligned_heap heap vec).1 - 8) = vec
  ∧ free_aligned_fallback (fallback_malloc_aligned_heap heap vec).2
        (fallback_malloc_aligned_heap heap vec).1 = vec
  ∧ vec + 8 ≤ (fallback_malloc_aligned_heap heap vec).1
  ∧ (fallback_malloc_aligned_heap heap vec).1
        ≤ vec + 8 + (VECTORALIGNMENT / 8 - 1) := by
  refine ⟨?_, ?_, (fallback_aligned_ptr_bounds vec).1,
          (fallback_aligned_ptr_bounds vec).2⟩
  · exact Function.update_same _ _ _
  · exact Function.update_same _ _ _

/-- C8: the scatter `set_samples` writes a pair's value only when its index is
below frame_count — the result equals the scatter over only the in-range
pairs, so out-of-range pairs are dropped without effect — and a cell targeted
by no pair (in particular, every in-range sample no in-range pair addresses)
is left unchanged. -/
theorem scatter_drops_out_of_range (b : buffer_wrapper)
    (pairs : List (Nat × sample_t)) :
    b.set_samples_scatter pairs
      = b.set_samples_scatter
          (pairs.filter (fun p => decide (p.1 < b.frames_)))
  ∧ ∀ j : Nat, (∀ p ∈ pairs, p.1 ≠ j) →
      ((b.set_samples_scatter pairs).data.getD memZero) j
        = (b.data.getD memZero) j := by
  obtain ⟨d, f, c, s⟩ := b
  constructor
  · cases d with
    | none => rfl
    | some mem =>
      show ({ data := some (scatterWrites f mem pairs), frames_ := f,
              channels_ := c, sample_rate_ := s } : buffer_wrapper)
          = { data := some (scatterWrites f mem
                (pairs.filter (fun p => decide (p.1 < f)))), frames_ := f,
              channels_ := c, sample_rate_ := s }
      rw [scatterWrites_filter f pairs mem]
  · intro j hall
    cases d with
    | none => rfl
    | some mem =>
      show scatterWrites f mem pairs j = mem j
      exact scatterWrites_untouched f pairs j mem hall

/-- Witness for C8: on a 3-frame buffer with pairs [(1, 5), (7, 9)], the
sample at index 2 is untouched. -/
theorem scatter_drops_out_of_range_witness :
    ((wbuf.set_samples_scatter wpairs).data.getD memZero) 2
      = (wbuf.data.getD memZero) 2 :=
  (scatter_drops_out_of_range wbuf wpairs).2 2 (by decide)

/-- C9: allocating a freshly constructed buffer and then freeing it yields a
state equal to the initial constructed state (all fields, `sample_rate_`
included, are back at their constructor values), and `free()` on an
unallocated buffer is an idempotent no-op. -/
theorem allocate_free_roundtrip :
    (∀ (frames channels : Nat) (fresh : Mem),
        (buffer_wrapper.init.allocate frames channels fresh).free
          = buffer_wrapper.init)
  ∧ ∀ b : buffer_wrapper, b.data = none → b.free = b := by
  constructor
  · intro frames channels fresh
    rfl
  · intro b h
    obtain ⟨d, f, c, s⟩ := b
    cases d with
    | none => rfl
    | some mem => simp at h

/-- Witness for C9: `free` on the freshly constructed (unallocated) buffer is
a no-op. -/
theorem allocate_free_roundtrip_witness :
    buffer_wrapper.init.free = buffer_wrapper.init :=
  allocate_free_roundtrip.2 buffer_wrapper.init rfl

/-- C10: `free()` on an allocated buffer nulls `data` and zeroes `frames_` and
`channels_`, while `sample_rate_` keeps its previous value; the result has no
other field, so nothing else is modified. -/
theorem free_effect_on_fields (b : buffer_wrapper)
    (h : b.data.isSome = true) :
    b.free = { data := none, frames_ := 0, channels_ := 0,
               sample_rate_ := b.sample_rate_ } := by
  obtain ⟨d, f, c, s⟩ := b
  cases d with
  | none => simp at h
  | some mem => rfl

/-- Witness for C10: `free` on an allocated 2-frame buffer. -/
theorem free_effect_on_fields_witness :
    fbuf.free = { data := none, frames_ := 0, channels_ := 0,
                  sample_rate_ := fbuf.sample_rate_ } :=
  free_effect_on_fields fbuf rfl

end Nova
